import Mathlib

/-!
Verification of the DIN-SQL text-to-SQL pipeline
(`src/libs/din_sql/din_sql_lib.py` and `src/utilities.py`).

The Python code is shallowly embedded: strings are Lean `String`s,
Python `str.split` / `str.replace` / `str.join` are modelled by
executable functions with the same semantics, the Bedrock completion
client is an abstract function (`none` models a swallowed
`botocore ClientError`, i.e. the Python function returning `None`),
and database introspection is a concrete data model of schemas,
tables, columns, foreign keys and primary-key constraint dicts.
-/

namespace Txt2Sql

/-! ## Python string primitives -/

/-- Core loop of Python `str.split(sep)` for a non-empty separator,
scanning left to right and cutting at each non-overlapping occurrence
of the separator.  `acc` holds (reversed) the characters of the
current segment; `skip` counts separator characters still to be
consumed after a cut (so the recursion is structural on the text). -/
def pySplitGo (sep : List Char) : List Char → List Char → Nat → List (List Char)
  | [], acc, _ => [acc.reverse]
  | _ :: rest, acc, Nat.succ skip => pySplitGo sep rest acc skip
  | c :: rest, acc, 0 =>
    if sep.isPrefixOf (c :: rest) then
      acc.reverse :: pySplitGo sep rest [] (sep.length - 1)
    else
      pySplitGo sep rest (c :: acc) 0

/-- Python `s.split(sep)` for a non-empty separator: non-overlapping
left-to-right cuts, keeping empty segments, and `[s]` when the
separator does not occur.  (Python raises on an empty separator; no
call site in the source uses one, and we return `[s]` there.) -/
def pySplit (s sep : String) : List String :=
  match sep.toList with
  | [] => [s]
  | sepL => (pySplitGo sepL s.toList [] 0).map List.asString

/-- Python `sep.join(l)`. -/
def pyJoin (sep : String) : List String → String
  | [] => ""
  | [x] => x
  | x :: xs => x ++ sep ++ pyJoin sep xs

/-- Python `s.replace(old, new)` for non-empty `old`, which equals
`new.join(s.split(old))`. -/
def pyReplace (s old new : String) : String :=
  pyJoin new (pySplit s old)

/-- Python `needle in hay` / `hay.find(needle) != -1`. -/
def listContainsSub (needle : List Char) : List Char → Bool
  | [] => needle.isEmpty
  | c :: rest => needle.isPrefixOf (c :: rest) || listContainsSub needle rest

/-- Substring containment on `String`, Python `needle in hay`. -/
def pyContains (hay needle : String) : Bool :=
  listContainsSub needle.toList hay.toList

/-- Python `s.strip()` (whitespace from both ends; Lean
`Char.isWhitespace` covers the ASCII whitespace Python strips in the
strings this pipeline handles). -/
def pyStrip (s : String) : String :=
  ((s.toList.dropWhile Char.isWhitespace).reverse.dropWhile Char.isWhitespace).reverse.asString

/-- Predicate: `needle` occurs verbatim inside `hay` (used to state that prompts
embed their inputs verbatim). -/
def ContainsStr (hay needle : String) : Prop :=
  ∃ a b, hay = a ++ (needle ++ b)

theorem string_append_assoc (a b c : String) : (a ++ b) ++ c = a ++ (b ++ c) := by
  cases a with
  | mk la =>
    cases b with
    | mk lb =>
      cases c with
      | mk lc =>
        show String.mk ((la ++ lb) ++ lc) = String.mk (la ++ (lb ++ lc))
        rw [List.append_assoc]

/-! ## `utilities.extract_tag` -/

/-- Positions `i` of `hay` at which `needle` starts. -/
def occurrencesAt (hay needle : List Char) : List Nat :=
  (List.range (hay.length + 1)).filter (fun i => needle.isPrefixOf (hay.drop i))

/-- Source `utilities.extract_tag(response, name, greedy)`: searches for the
regex `<name>(.*)</name>` (greedy) or `<name>(.*?)</name>` (lazy) with
`re.DOTALL` via `re.search`, returning `(group(1).strip(), end(1))`,
or `("", -1)` when there is no match.  `re.search` takes the leftmost
position where the pattern can match; the group then extends to the
last closing tag (greedy) or the first closing tag (lazy). -/
def extract_tag (response name : String) (greedy : Bool := true) : String × Int :=
  let hay := response.toList
  let openT := ("<" ++ name ++ ">").toList
  let closeT := ("</" ++ name ++ ">").toList
  let closes := occurrencesAt hay closeT
  match (occurrencesAt hay openT).find? (fun i => closes.any (fun j => i + openT.length ≤ j)) with
  | some i =>
    let cands := closes.filter (fun j => i + openT.length ≤ j)
    let j := if greedy then cands.foldl max 0 else cands.headD 0
    let content := (hay.drop (i + openT.length)).take (j - (i + openT.length))
    (pyStrip content.asString, (j : Int))
  | none => ("", -1)

/-! ## Database introspection model

A concrete model of the SQLAlchemy `inspect(...)` surface the library
uses: schema names, per-schema table names, per-table columns, foreign
keys, and the `get_pk_constraint` dict. -/

/-- A reflected Python value, enough to model the dict returned by
`inspector.get_pk_constraint` and what iterating over it yields. -/
inductive PyVal where
  | str (s : String)
  | strList (l : List String)
  | dict (kvs : List (String × PyVal))
deriving Repr

/-- Python `type(v) == dict`. -/
def PyVal.isDict : PyVal → Bool
  | .dict _ => true
  | _ => false

/-- Python `k in v.keys()` (false on non-dicts; the guard in the source
only evaluates it after the `type(pk) == dict` check). -/
def PyVal.hasKey : PyVal → String → Bool
  | .dict kvs, k => kvs.any (fun kv => kv.1 = k)
  | _, _ => false

/-- Python `v[k]` on a dict (first binding; default `str ""`). -/
def PyVal.getItem : PyVal → String → PyVal
  | .dict kvs, k => ((kvs.find? (fun kv => kv.1 = k)).map Prod.snd).getD (.str "")
  | _, _ => .str ""

/-- Python `v[0]` on a list of strings (default `""`). -/
def PyVal.index0 : PyVal → String
  | .strList l => l.headD ""
  | _ => ""

/-- Python iteration over a dict yields its keys, as strings:
`for pk in inspector.get_pk_constraint(...)` iterates key names. -/
def pyIterDict (kvs : List (String × PyVal)) : List PyVal :=
  kvs.map (fun kv => PyVal.str kv.1)

/-- A foreign key as reported by `inspector.get_foreign_keys`. -/
structure FKey where
  constrained_columns : List String
  referred_table : String
  referred_columns : List String
deriving Repr

/-- A reflected table: name, column names, foreign keys, and the
`get_pk_constraint` dict (an association list of string keys). -/
structure Table where
  name : String
  columns : List String
  foreign_keys : List FKey
  pk_constraint : List (String × PyVal)
deriving Repr

structure DbSchema where
  name : String
  tables : List Table
deriving Repr

/-- The connected database as seen through the inspector. -/
structure Database where
  schemas : List DbSchema
deriving Repr

/-- Models `inspector.get_schema_names()`. -/
def get_schema_names (d : Database) : List String :=
  d.schemas.map (·.name)

def lookupSchema (d : Database) (s : String) : Option DbSchema :=
  d.schemas.find? (·.name = s)

/-- Models `inspector.get_table_names(schema=s)`. -/
def get_table_names (d : Database) (s : String) : List String :=
  ((lookupSchema d s).map (fun sc => sc.tables.map (·.name))).getD []

/-- Models `inspector.get_columns(table_name, schema=s)` (column names). -/
def get_columns (d : Database) (s t : String) : List String :=
  (((lookupSchema d s).bind (fun sc => sc.tables.find? (·.name = t))).map (·.columns)).getD []

/-- Models `inspector.get_foreign_keys(table_name)` — the source omits the
`schema` argument (lines 302 and 311), so the table is resolved by
name alone; modelled as the first table with that name across schemas. -/
def get_foreign_keys (d : Database) (t : String) : List FKey :=
  ((d.schemas.findSome? (fun sc => sc.tables.find? (·.name = t))).map (·.foreign_keys)).getD []

/-- Models `inspector.get_pk_constraint(table_name, schema=s)`: a dict. -/
def get_pk_constraint (d : Database) (s t : String) : List (String × PyVal) :=
  (((lookupSchema d s).bind (fun sc => sc.tables.find? (·.name = t))).map (·.pk_constraint)).getD []

/-! ## `DIN_SQL.find_foreign_keys`, `find_fields`, `find_primary_keys` -/

/-- The string appended for one foreign key:
`f"{table_name}.{fk['constrained_columns'][0]} = {fk['referred_table']}.{fk['referred_columns'][0]},"`. -/
def fkItem (table_name : String) (fk : FKey) : String :=
  table_name ++ "." ++ fk.constrained_columns.headD "" ++ " = " ++
    fk.referred_table ++ "." ++ fk.referred_columns.headD "" ++ ","

/-- Source `DIN_SQL.find_foreign_keys(db_name)` (lines 291-318).  `db_name`
falsy (`None`/`""`) is modelled as `""`. -/
def find_foreign_keys (d : Database) (db_name : String) : String :=
  let schemas := get_schema_names d
  let output := "["
  let output :=
    if db_name ≠ "" && schemas.contains db_name then
      (get_table_names d db_name).foldl (fun acc t =>
        (get_foreign_keys d t).foldl (fun acc2 fk => acc2 ++ fkItem t fk) acc) output
    else
      (schemas.filter (· ≠ "information_schema")).foldl (fun acc s =>
        (get_table_names d s).foldl (fun acc t =>
          (get_foreign_keys d t).foldl (fun acc2 fk => acc2 ++ fkItem t fk) acc) acc) output
  let output := output.dropRight 1 ++ "]"
  if output.length > 2 then output else "[]"

/-- Per-table body of `find_fields`: append the table header, one
`"{column},"` per column, strip the final character of the whole
accumulator (`output = output[:-1]`), then append `"]\n"`. -/
def fieldsTable (d : Database) (s : String) (acc : String) (t : String) : String :=
  let acc := acc ++ "Table " ++ t ++ ", columns = ["
  let acc := (get_columns d s t).foldl (fun a c => a ++ c ++ ",") acc
  acc.dropRight 1 ++ "]\n"

/-- Source `DIN_SQL.find_fields(db_name)` (lines 321-352). -/
def find_fields (d : Database) (db_name : String) : String :=
  let schemas := get_schema_names d
  let output := ""
  let output :=
    if db_name ≠ "" && schemas.contains db_name then
      (get_table_names d db_name).foldl (fieldsTable d db_name) output
    else
      (schemas.filter (· ≠ "information_schema")).foldl (fun acc s =>
        (get_table_names d s).foldl (fieldsTable d s) acc) output
  if output.length > 2 then output else "[]"

/-- Loop body of `find_primary_keys`: for each `pk` yielded by
iterating the `get_pk_constraint` dict, append only when
`type(pk) == dict and ‹constrained_columns› in pk.keys()`. -/
def pkGuardAppend (t : String) (acc : String) (pk : PyVal) : String :=
  if pk.isDict && pk.hasKey "constrained_columns" then
    acc ++ t ++ "." ++ (pk.getItem "constrained_columns").index0 ++ ","
  else acc

/-- Source `DIN_SQL.find_primary_keys(db_name)` (lines 355-384). -/
def find_primary_keys (d : Database) (db_name : String) : String :=
  let schemas := get_schema_names d
  let output := ""
  let output :=
    if db_name ≠ "" && schemas.contains db_name then
      let o := (get_table_names d db_name).foldl (fun acc t =>
        (pyIterDict (get_pk_constraint d db_name t)).foldl (pkGuardAppend t) acc) output
      o.dropRight 1 ++ "]\n"
    else
      let o := (schemas.filter (· ≠ "information_schema")).foldl (fun acc s =>
        (get_table_names d s).foldl (fun acc t =>
          (pyIterDict (get_pk_constraint d s t)).foldl (pkGuardAppend t) acc) acc) output
      o.dropRight 1 ++ "]\n"
  if output.length > 2 then output else "[]"

/-! ## Prompts and generation calls

The jinja templates live outside the library code; rendering is
treated as an injective constructor per variant, whose arguments are
exactly the keyword arguments each `*_prompt_maker` passes to
`render` (the tag arguments are the instance constants of lines
54-57). -/

/-- A rendered prompt, one constructor per template, plus `raw` for
the literal f-string prompt of `revise_query_with_error`. -/
inductive Prompt where
  | easy (instruction_tag_start instruction_tag_end fields example_tag_start
      example_tag_end schema_links test_sample_text sql_tag_start sql_tag_end : String)
  | medium (instruction_tag_start instruction_tag_end fields foreign_keys
      example_tag_start example_tag_end schema_links test_sample_text
      sql_tag_start sql_tag_end : String)
  | hard (instruction_tag_start instruction_tag_end fields foreign_keys
      example_tag_start example_tag_end schema_links test_sample_text
      sub_questions sql_tag_start sql_tag_end : String)
  | clean (instruction_tag_start instruction_tag_end example_tag_start
      example_tag_end revised_qry_start revised_qry_end sql_dialect
      meta_data question sql_query : String)
  | raw (text : String)
deriving Repr, DecidableEq

/-- One invocation of `DIN_SQL.llm_generation`: the prompt, the stop
sequences, and the optional `word_in_mouth` assistant prefix. -/
structure GenCall where
  prompt : Prompt
  stop_sequences : List String
  word_in_mouth : Option String
deriving Repr, DecidableEq

/-- Source `DIN_SQL.medium_prompt_maker` (lines 192-214). -/
def medium_prompt_maker (d : Database) (test_sample_text database schema_links : String)
    (sql_tag_start : String := "```sql") (sql_tag_end : String := "```") : Prompt :=
  .medium "<instructions>" "</instructions>" (find_fields d database)
    (find_foreign_keys d database) "<example>" "</example>" schema_links
    test_sample_text sql_tag_start sql_tag_end

/-- Source `DIN_SQL.hard_prompt_maker` (lines 166-189). -/
def hard_prompt_maker (d : Database) (test_sample_text database schema_links sub_questions : String)
    (sql_tag_start : String := "```sql") (sql_tag_end : String := "```") : Prompt :=
  .hard "<instructions>" "</instructions>" (find_fields d database)
    (find_foreign_keys d database) "<example>" "</example>" schema_links
    test_sample_text sub_questions sql_tag_start sql_tag_end

/-- Source `DIN_SQL.easy_prompt_maker` (lines 217-238). -/
def easy_prompt_maker (d : Database) (test_sample_text database schema_links : String)
    (sql_tag_start : String := "```sql") (sql_tag_end : String := "```") : Prompt :=
  .easy "<instructions>" "</instructions>" (find_fields d database)
    "<example>" "</example>" schema_links test_sample_text sql_tag_start sql_tag_end

/-- The keyword parameters `easy_prompt_maker` accepts (line 217). -/
def easy_prompt_maker_params : List String :=
  ["test_sample_text", "database", "schema_links", "sql_tag_start", "sql_tag_end"]

/-- The keyword arguments the `EASY` branch of `get_sql` passes to
`easy_prompt_maker` (lines 562-569) — note `word_in_mouth` is inside
the `easy_prompt_maker(...)` parentheses, not the `llm_generation`
ones. -/
def easy_branch_kwargs : List String :=
  ["test_sample_text", "database", "schema_links", "sql_tag_start", "sql_tag_end", "word_in_mouth"]

/-- Python call semantics: a call with keyword arguments raises
`TypeError` unless every keyword names a declared parameter. -/
def kwargsAccepted (params kwargs : List String) : Bool :=
  kwargs.all (fun k => params.contains k)

/-- Source `DIN_SQL.debugger` (lines 387-417): renders the clean-query
prompt over the combined metadata blob, question, candidate SQL and
dialect. -/
def debugger (d : Database) (test_sample_text database sql : String)
    (sql_tag_start : String := "```sql") (sql_tag_end : String := "```")
    (sql_dialect : String := "MySQL") : Prompt :=
  let fields := find_fields d database
  let fields := fields ++ "Foreign_keys = " ++ find_foreign_keys d database ++ "\n"
  let fields := fields ++ "Primary_keys = " ++ find_primary_keys d database
  .clean "<instructions>" "</instructions>" "<example>" "</example>"
    sql_tag_start sql_tag_end sql_dialect fields test_sample_text sql

/-! ## `DIN_SQL.get_sql` -/

/-- The `word_in_mouth` of the `NESTED` branch (lines 594-595): a
triple-quoted f-string whose literal tail is a newline plus 24 spaces. -/
def nestedWordInMouth (question sub_questions : String) : String :=
  "A: Let\x27s think step by step. \"" ++ question ++
    "\" can be solved by knowing the answer to the following sub-question \"" ++
    sub_questions ++ "\". The SQL query for the sub-question \"\n                        "

/-- Outcome of the dispatch inside the first `try` block of `get_sql`
(lines 559-613). -/
inductive Stage1 where
  /-- Source `llm_generation` is invoked with this call. -/
  | invoke (c : GenCall)
  /-- an exception was raised inside the `try` and caught at line 611:
  `SQL = "SELECT"`. -/
  | caught
  /-- unknown classification (line 609): `SQL` stays `None`. -/
  | unknownClass
deriving Repr, DecidableEq

/-- The classification dispatch of `get_sql` (lines 559-613), as the
action the `try` block performs. -/
def stage1 (d : Database) (question db_name schema_links classification : String) : Stage1 :=
  if classification = "EASY" then
    -- line 568 passes `word_in_mouth` to `easy_prompt_maker`, which
    -- does not declare it: Python raises TypeError before any model
    -- call, and the `except Exception` at line 611 catches it.
    if kwargsAccepted easy_prompt_maker_params easy_branch_kwargs then
      .invoke { prompt := easy_prompt_maker d question db_name schema_links
                stop_sequences := ["</example>"]
                word_in_mouth := none }
    else .caught
  else if classification = "NON-NESTED" then
    .invoke { prompt := medium_prompt_maker d question db_name schema_links
              stop_sequences := ["</example>"]
              word_in_mouth := some "SQL: ```sql" }
  else if classification = "NESTED" then
    if pyContains classification "questions = [" then
      match (pySplit classification "questions = [\"").get? 1 with
      | none => .caught -- IndexError from `[1]`, caught at line 611
      | some rest =>
        let sub_questions := (pySplit rest "\"]").headD ""
        .invoke { prompt := hard_prompt_maker d question db_name schema_links sub_questions
                  stop_sequences := ["</example>"]
                  word_in_mouth := some (nestedWordInMouth question sub_questions) }
    else
      .invoke { prompt := medium_prompt_maker d question db_name schema_links
                stop_sequences := ["</example>"]
                word_in_mouth := some "SQL: ```sql" }
  else .unknownClass

/-- The abstract completion client: `llm` is `llm_generation` and
`dbg` is `debugger_generation`; `none` models the Python functions
returning `None` after swallowing a `botocore ClientError`. -/
structure GenEnv where
  llm : GenCall → Option String
  dbg : Prompt → Option String

/-- The value of `SQL` after the first `try`/`except` of `get_sql`:
`none` is Python `None`. -/
def runStage1 (env : GenEnv) (d : Database) (question db_name schema_links classification : String) :
    Option String :=
  match stage1 d question db_name schema_links classification with
  | .invoke c => env.llm c
  | .caught => some "SELECT"
  | .unknownClass => none

/-- Line 617: `SQL.split(open)[-1].split(close)[0]` for the fence tags. -/
def extractLastFence (s : String) : String :=
  (pySplit ((pySplit s "```sql").getLastD "") "```").headD ""

/-- The value of `SQL` after the second `try`/`except` (lines
615-620), i.e. the string logged as "SQL before debugging": when the
first stage left `SQL = None`, the `.split` raises `AttributeError`
and the handler substitutes `"SELECT"`. -/
def sqlBeforeDebug (env : GenEnv) (d : Database)
    (question db_name schema_links classification : String) : String :=
  match runStage1 env d question db_name schema_links classification with
  | none => "SELECT"
  | some s => extractLastFence s

/-- A Python exception escaping `get_sql` (lines 623-627 run outside
any `try`). -/
inductive PyErr where
  /-- Source `None.replace(...)` / `None.split(...)`. -/
  | attributeError
  /-- Source `list[1]` on a too-short list. -/
  | indexError
deriving Repr, DecidableEq

/-- Line 626 applied to the clean-pass output `out`:
`debugged_SQL.split(open)[1].split(close)[0].strip()` where
`debugged_SQL = out.replace("\n", " ")`; arbitrary (`""`) when the
`[1]` index would raise. -/
def cleanExtract (out : String) : String :=
  (((pySplit (pyReplace out "\n" " ") "```sql").get? 1).map
    (fun rest => pyStrip ((pySplit rest "```").headD ""))).getD ""

/-- Source `DIN_SQL.get_sql` (lines 541-627): classification dispatch and
first-pass generation, fence extraction with `"SELECT"` fallback, then
the unconditional clean pass whose result is returned.  The clean pass
runs outside any `try`: a `None` result or a missing fence there
raises. -/
def get_sql (env : GenEnv) (d : Database) (dialect : String)
    (question db_name schema_links classification : String) : Except PyErr String :=
  let SQL := sqlBeforeDebug env d question db_name schema_links classification
  match env.dbg (debugger d question db_name SQL "```sql" "```" dialect) with
  | none => .error .attributeError
  | some out =>
    match (pySplit (pyReplace out "\n" " ") "```sql").get? 1 with
    | none => .error .indexError
    | some rest => .ok (pyStrip ((pySplit rest "```").headD ""))

/-- True when a `Stage1` action invokes the model with a hard-variant
prompt. -/
def Stage1.isHardInvoke : Stage1 → Bool
  | .invoke c =>
    match c.prompt with
    | .hard .. => true
    | _ => false
  | _ => false

/-! ## `DIN_SQL.query` and the repair cycle -/

/-- Literal f-string prompt of `revise_query_with_error` (lines
527-534), with its exact indentation whitespace; written
right-associated. -/
def revisePrompt (sql_query error_message sql_tag_start sql_tag_end : String) : String :=
  "Human:\n                Please provide a new SQL query that correctly fixes the invalid SQL statement below using the SQL Error information.\n                Only provide one new SQL query in your response and use begin and end tags of \"" ++
  (sql_tag_start ++ ("\" and \"" ++ (sql_tag_end ++ ("\" respectively:\n                Invalid SQL Statement: " ++
  (sql_query ++ ("\n                SQL Error: " ++ (error_message ++ "\n\n                Assistant:\n                ")))))))

/-- Source `DIN_SQL.revise_query_with_error` (lines 519-538): one model call
on the raw repair prompt (default stop sequences, no assistant
prefix), then `retry_sql.split(sql_tag_start)[1].split(sql_tag_end)[0]`.
A `None` model result raises `AttributeError` at the `.split`; a
missing opening tag raises `IndexError`; neither is caught here or in
`query` (which only catches `SQLAlchemyError`). -/
def revise_query_with_error (env : GenEnv) (sql_query error_message : String)
    (sql_tag_start : String := "```sql") (sql_tag_end : String := "```") :
    Except PyErr String :=
  match env.llm { prompt := .raw (revisePrompt sql_query error_message sql_tag_start sql_tag_end)
                  stop_sequences := []
                  word_in_mouth := none } with
  | none => .error .attributeError
  | some retry_sql =>
    match (pySplit retry_sql sql_tag_start).get? 1 with
    | none => .error .indexError
    | some rest => .ok ((pySplit rest sql_tag_end).headD "")

/-- What `DIN_SQL.query` hands back: the rows of a successful
execution, or the formatted error string of line 146. -/
inductive QueryResult (α : Type) where
  | rows (r : α)
  | errStr (s : String)
deriving Repr, DecidableEq

/-- Source `DIN_SQL.query(sql_string)` (lines 116-146), with
`exec : String → Except String α` modelling
`db_connection.execute(...).all()` (`.error e` is a raised
`SQLAlchemyError` whose `str` is `e`).  Alongside the result, the
list of SQL strings handed to the data source, in order, is returned
so that retry counts are part of the model. -/
def query {α : Type} (exec : String → Except String α) (env : GenEnv) (sql_string : String) :
    Except PyErr (QueryResult α) × List String :=
  match exec sql_string with
  | .ok r => (.ok (.rows r), [sql_string])
  | .error e =>
    match revise_query_with_error env sql_string e "```sql" "```" with
    | .error pe => (.error pe, [sql_string])
    | .ok revised_sql =>
      match exec revised_sql with
      | .ok r => (.ok (.rows r), [sql_string, revised_sql])
      | .error e2 => (.ok (.errStr ("SQLAlchemy error: " ++ e2)), [sql_string, revised_sql])

/-! ## Spec-side extraction semantics (for the refinement claim about
fence extraction) -/

/-- Modelled from the words of spec section 4.4: "split on the opening
marker, take everything after it, split on the closing marker, take
everything before it", read as first-fence-pair semantics — everything
after the FIRST opening marker, then everything before the first
closing marker inside it. -/
def specFirstFencePair (s : String) : String :=
  let afterFirst := pyJoin "```sql" ((pySplit s "```sql").drop 1)
  (pySplit afterFirst "```").headD ""

/-! ## Concrete fixtures for witnesses and counterexamples -/

/-- A small connected database: one schema `s`, one table `t` with two
columns, one foreign key, and a real primary-key constraint dict. -/
def exampleDb : Database :=
  Database.mk [DbSchema.mk "s"
    [Table.mk "t" ["a", "b"] [FKey.mk ["x"] "u" ["y"]]
      [("constrained_columns", PyVal.strList ["a"]), ("name", PyVal.str "t_pkey")]]]

/-- A database whose only schema has zero tables. -/
def emptySchemaDb : Database :=
  Database.mk [DbSchema.mk "s" []]

/-- A completion client that always fails: both `llm_generation` and
`debugger_generation` swallow a `ClientError` and return `None`. -/
def failingEnv : GenEnv :=
  GenEnv.mk (fun _ => none) (fun _ => none)

/-- A client whose clean pass returns a well-fenced statement. -/
def cleanOkEnv : GenEnv :=
  GenEnv.mk (fun _ => none) (fun _ => some "```sqlSELECT 1```")

/-- A data source that rejects every statement, with distinct error
messages for the original and the revised SQL. -/
def repairExec : String → Except String Nat :=
  fun s => if s = "SELECT 1" then Except.error "syntax error" else Except.error "also bad"

/-- A client whose repair generation returns a well-fenced revision. -/
def repairEnv : GenEnv :=
  GenEnv.mk (fun _ => some "```sqlSELECT 2```") (fun _ => none)

instance {ε α : Type} [DecidableEq ε] [DecidableEq α] : DecidableEq (Except ε α) := fun x y =>
  match x, y with
  | .ok a, .ok b =>
    if h : a = b then .isTrue (by rw [h]) else .isFalse (fun hh => h (Except.ok.inj hh))
  | .error a, .error b =>
    if h : a = b then .isTrue (by rw [h]) else .isFalse (fun hh => h (Except.error.inj hh))
  | .ok _, .error _ => .isFalse (fun hh => Except.noConfusion hh)
  | .error _, .ok _ => .isFalse (fun hh => Except.noConfusion hh)

/-! ## Helper lemmas -/

theorem foldl_fixed {α β : Type} (f : β → α → β) (init : β) (l : List α)
    (h : ∀ acc x, x ∈ l → f acc x = acc) : l.foldl f init = init := by
  induction l generalizing init with
  | nil => rfl
  | cons a t ih =>
    rw [List.foldl_cons, h init a (List.mem_cons_self a t)]
    exact ih init (fun acc x hx => h acc x (List.mem_cons_of_mem a hx))

theorem foldl_const {α β : Type} (init : β) (l : List α) :
    l.foldl (fun acc _ => acc) init = init :=
  foldl_fixed _ init l (fun _ _ _ => rfl)

/-- Iterating a Python dict yields string keys, never dicts, so the
guarded append of `find_primary_keys` leaves the accumulator alone. -/
theorem pkGuard_fold (t : String) (kvs : List (String × PyVal)) (acc : String) :
    (pyIterDict kvs).foldl (pkGuardAppend t) acc = acc := by
  induction kvs generalizing acc with
  | nil => rfl
  | cons kv rest ih =>
    have h1 : pyIterDict (kv :: rest) = PyVal.str kv.1 :: pyIterDict rest := rfl
    rw [h1, List.foldl_cons]
    have h2 : pkGuardAppend t acc (PyVal.str kv.1) = acc := rfl
    rw [h2]
    exact ih acc

/-- Shared core of the primary-key claims: `find_primary_keys` never
appends an entry, hence always returns the sentinel. -/
theorem find_primary_keys_sentinel (d : Database) (db_name : String) :
    find_primary_keys d db_name = "[]" := by
  unfold find_primary_keys
  dsimp only
  split
  · have h1 : (get_table_names d db_name).foldl
        (fun acc t => (pyIterDict (get_pk_constraint d db_name t)).foldl (pkGuardAppend t) acc)
        "" = "" := by
      simp only [pkGuard_fold]
      exact foldl_const "" _
    rw [h1]
    decide
  · have h1 : ((get_schema_names d).filter (· ≠ "information_schema")).foldl
        (fun acc s => (get_table_names d s).foldl
          (fun acc t => (pyIterDict (get_pk_constraint d s t)).foldl (pkGuardAppend t) acc) acc)
        "" = "" := by
      simp only [pkGuard_fold]
      simp only [foldl_const]
    rw [h1]
    decide

/-- Appending on the right preserves verbatim containment through a
right-associated build. -/
theorem containsStr_shift (p : String) {hay needle : String} (h : ContainsStr hay needle) :
    ContainsStr (p ++ hay) needle := by
  obtain ⟨a, b, hh⟩ := h
  exact ⟨p ++ a, b, by rw [hh, string_append_assoc]⟩

theorem containsStr_here (a needle b : String) : ContainsStr (a ++ (needle ++ b)) needle :=
  ⟨a, b, rfl⟩

theorem containsStr_head (needle b : String) : ContainsStr (needle ++ b) needle :=
  ⟨"", b, rfl⟩

/-! ## Claim theorems -/

/-- Claim C1: the source guards the hard-prompt path by
`classification.find('questions = [')` only after
`classification == 'NESTED'` has already held, so no input ever
selects the hard variant; a marker-bearing classification string such
as `NESTED questions = ["Which?"]` instead falls into the
unknown-classification branch (no SQL generated). -/
theorem c1_hard_variant_unreachable :
    (∀ (d : Database) (q db_name schema_links classification : String),
      (stage1 d q db_name schema_links classification).isHardInvoke = false)
    ∧ stage1 exampleDb "q" "db" "links" "NESTED questions = [\"Which?\"]" = .unknownClass := by
  refine ⟨?_, rfl⟩
  intro d q db_name schema_links classification
  unfold stage1
  split
  · rfl
  · split
    · rfl
    · split
      · rename_i hcl
        subst hcl
        rfl
      · rfl

/-- Claim C2: a classification equal to `NESTED` (which therefore
lacks the sub-question marker) produces exactly the generation call of
the `NON-NESTED` branch — same medium prompt with the same fields,
same stop sequence, same assistant prefix — and hence the same
`get_sql` result for every client. -/
theorem c2_nested_fallback_equals_non_nested :
    (∀ (d : Database) (q db_name schema_links : String),
      stage1 d q db_name schema_links "NESTED" = stage1 d q db_name schema_links "NON-NESTED")
    ∧ (∀ (env : GenEnv) (d : Database) (dialect q db_name schema_links : String),
      get_sql env d dialect q db_name schema_links "NESTED"
        = get_sql env d dialect q db_name schema_links "NON-NESTED") :=
  ⟨fun _ _ _ _ => rfl, fun _ _ _ _ _ _ => rfl⟩

/-- Claim C3, counterexample: with a completion client that always
fails, `get_sql` does not return the `"SELECT"` sentinel — the clean
pass calls `.replace` on the `None` returned by
`debugger_generation`, raising `AttributeError` past the boundary. -/
theorem c3_counterexample :
    get_sql failingEnv exampleDb "mysql" "q" "db" "links" "NON-NESTED" = .error .attributeError
    ∧ get_sql failingEnv exampleDb "mysql" "q" "db" "links" "NON-NESTED" ≠ .ok "SELECT" :=
  ⟨rfl, fun h => Except.noConfusion h⟩

/-- Claim C3, amended: when `llm_generation` always fails, every
classification degrades to the `"SELECT"` sentinel up to the clean
pass; but when `debugger_generation` also always fails, `get_sql`
raises `AttributeError` instead of returning the sentinel. -/
theorem c3_sentinel_only_before_clean_pass :
    (∀ (dbgF : Prompt → Option String) (d : Database) (q db_name schema_links cl : String),
      sqlBeforeDebug (GenEnv.mk (fun _ => none) dbgF) d q db_name schema_links cl = "SELECT")
    ∧ (∀ (d : Database) (dialect q db_name schema_links cl : String),
      get_sql failingEnv d dialect q db_name schema_links cl = .error .attributeError) := by
  constructor
  · intro dbgF d q db_name schema_links cl
    unfold sqlBeforeDebug runStage1
    cases h : stage1 d q db_name schema_links cl with
    | invoke c => rfl
    | caught => rfl
    | unknownClass => rfl
  · intro d dialect q db_name schema_links cl
    rfl

/-- Claim C4: when the first execution fails, `query` performs exactly
one repair cycle — the repair prompt embeds the failing SQL and the
error message verbatim, the revised SQL is executed exactly once (two
executions in total), and a second failure yields the formatted error
string rather than an exception. -/
theorem c4_query_one_repair_cycle {α : Type} (exec : String → Except String α) (env : GenEnv)
    (sql e retry rest e2 : String)
    (h1 : exec sql = .error e)
    (h2 : env.llm (GenCall.mk (.raw (revisePrompt sql e "```sql" "```")) [] none) = some retry)
    (h3 : (pySplit retry "```sql").get? 1 = some rest)
    (h4 : exec ((pySplit rest "```").headD "") = .error e2) :
    query exec env sql
      = (.ok (.errStr ("SQLAlchemy error: " ++ e2)), [sql, (pySplit rest "```").headD ""])
    ∧ ContainsStr (revisePrompt sql e "```sql" "```") sql
    ∧ ContainsStr (revisePrompt sql e "```sql" "```") e := by
  refine ⟨?_, ?_, ?_⟩
  · simp only [query, revise_query_with_error, h1, h2, h3, h4]
  · unfold revisePrompt
    apply containsStr_shift
    apply containsStr_shift
    apply containsStr_shift
    apply containsStr_shift
    apply containsStr_shift
    exact containsStr_head _ _
  · unfold revisePrompt
    apply containsStr_shift
    apply containsStr_shift
    apply containsStr_shift
    apply containsStr_shift
    apply containsStr_shift
    apply containsStr_shift
    apply containsStr_shift
    exact containsStr_head _ _

/-- Witness for C4 at a concrete failing data source and repair
generation. -/
theorem c4_witness :
    query repairExec repairEnv "SELECT 1"
      = (.ok (.errStr "SQLAlchemy error: also bad"), ["SELECT 1", "SELECT 2"])
    ∧ ContainsStr (revisePrompt "SELECT 1" "syntax error" "```sql" "```") "SELECT 1"
    ∧ ContainsStr (revisePrompt "SELECT 1" "syntax error" "```sql" "```") "syntax error" := by
  exact c4_query_one_repair_cycle repairExec repairEnv "SELECT 1" "syntax error"
    "```sqlSELECT 2```" "SELECT 2```" "also bad" rfl rfl rfl rfl

/-- Claim C5: an `EASY` classification never reaches the completion
client for the first pass — the branch passes `word_in_mouth` as a
keyword to `easy_prompt_maker`, which does not declare it, so Python
raises `TypeError`, the catch-all substitutes `"SELECT"`, and the SQL
handed to the clean pass is always the sentinel. -/
theorem c5_easy_branch_raises_type_error :
    (∀ (d : Database) (q db_name schema_links : String),
      stage1 d q db_name schema_links "EASY" = .caught)
    ∧ (∀ (env : GenEnv) (d : Database) (q db_name schema_links : String),
      sqlBeforeDebug env d q db_name schema_links "EASY" = "SELECT")
    ∧ kwargsAccepted easy_prompt_maker_params easy_branch_kwargs = false :=
  ⟨fun _ _ _ _ => rfl, fun _ _ _ _ _ => rfl, rfl⟩

/-- Claim C6, counterexample: the extraction of `get_sql` takes the
segment after the LAST opening fence (`[-1]`), so on a candidate with
two fenced blocks it returns the second one while first-fence-pair
semantics returns the first. -/
theorem c6_counterexample :
    extractLastFence "x```sqlA``` y```sqlB```" = "B"
    ∧ specFirstFencePair "x```sqlA``` y```sqlB```" = "A"
    ∧ extractLastFence "x```sqlA``` y```sqlB```"
        ≠ specFirstFencePair "x```sqlA``` y```sqlB```" := by
  refine ⟨rfl, rfl, ?_⟩
  decide

/-- Claim C6, amended: the extraction takes everything after the LAST
opening marker and then everything before the first closing marker in
it; it agrees with first-fence-pair semantics exactly when the
candidate contains a single opening marker (a two-element split). -/
theorem c6_last_fence_semantics (s p q : String) (h : pySplit s "```sql" = [p, q]) :
    extractLastFence s = (pySplit q "```").headD ""
    ∧ extractLastFence s = specFirstFencePair s := by
  have h1 : extractLastFence s = (pySplit q "```").headD "" := by
    unfold extractLastFence
    rw [h]
    rfl
  refine ⟨h1, ?_⟩
  rw [h1]
  unfold specFirstFencePair
  rw [h]
  rfl

/-- Witness for the amended C6 on a single-fence candidate. -/
theorem c6_witness :
    extractLastFence "a```sqlSELECT 1```" = (pySplit "SELECT 1```" "```").headD ""
    ∧ extractLastFence "a```sqlSELECT 1```" = specFirstFencePair "a```sqlSELECT 1```" :=
  c6_last_fence_semantics "a```sqlSELECT 1```" "a" "SELECT 1```" rfl

/-- Claim C7: whenever `get_sql` returns normally, the returned string
is the fence-extracted, newline-collapsed, stripped output of the
unconditional clean pass (`debugger_generation` on the `debugger`
prompt built from fields, foreign keys, primary keys, question,
candidate SQL and dialect) — never the raw first-pass SQL. -/
theorem c7_clean_pass_is_returned (env : GenEnv) (d : Database)
    (dialect q db_name schema_links classification r : String)
    (h : get_sql env d dialect q db_name schema_links classification = .ok r) :
    (env.dbg (debugger d q db_name
        (sqlBeforeDebug env d q db_name schema_links classification) "```sql" "```" dialect)).isSome
      = true
    ∧ r = cleanExtract ((env.dbg (debugger d q db_name
        (sqlBeforeDebug env d q db_name schema_links classification) "```sql" "```" dialect)).getD "") := by
  simp only [get_sql] at h
  cases hdbg : env.dbg (debugger d q db_name
      (sqlBeforeDebug env d q db_name schema_links classification) "```sql" "```" dialect) with
  | none =>
    rw [hdbg] at h
    exact Except.noConfusion h
  | some out =>
    rw [hdbg] at h
    dsimp only at h
    refine ⟨rfl, ?_⟩
    show r = cleanExtract out
    cases hsp : (pySplit (pyReplace out "\n" " ") "```sql").get? 1 with
    | none =>
      rw [hsp] at h
      exact Except.noConfusion h
    | some rest =>
      rw [hsp] at h
      dsimp only at h
      have hr := Except.ok.inj h
      unfold cleanExtract
      rw [hsp]
      exact hr.symm

/-- Witness for C7: a client whose clean pass emits a fenced
statement makes `get_sql` return that statement. -/
theorem c7_witness :
    (cleanOkEnv.dbg (debugger exampleDb "q" "db"
        (sqlBeforeDebug cleanOkEnv exampleDb "q" "db" "links" "EASY") "```sql" "```" "mysql")).isSome
      = true
    ∧ "SELECT 1" = cleanExtract ((cleanOkEnv.dbg (debugger exampleDb "q" "db"
        (sqlBeforeDebug cleanOkEnv exampleDb "q" "db" "links" "EASY") "```sql" "```" "mysql")).getD "") :=
  c7_clean_pass_is_returned cleanOkEnv exampleDb "mysql" "q" "db" "links" "EASY" "SELECT 1" rfl

/-- Claim C8: `extract_tag` returns the tagged content with the end
offset of the content group, and the no-match sentinel is
`("", -1)`. -/
theorem c8_extract_tag_examples :
    extract_tag "foo <a>baz</a> bar" "a" true = ("baz", 10)
    ∧ extract_tag "no tags here" "a" = ("", -1) := by
  constructor
  · decide
  · decide

/-- Claim C9: when the named schema exists, the three introspection
formatters return the literal sentinel `"[]"` in the empty cases —
`find_foreign_keys` when every table of the schema has no foreign
keys, `find_fields` when the schema has no tables, and
`find_primary_keys` always (its guard never appends). -/
theorem c9_empty_introspection_sentinels (d : Database) (db_name : String)
    (h1 : db_name ≠ "") (h2 : (get_schema_names d).contains db_name = true) :
    ((∀ t ∈ get_table_names d db_name, get_foreign_keys d t = []) →
      find_foreign_keys d db_name = "[]")
    ∧ (get_table_names d db_name = [] → find_fields d db_name = "[]")
    ∧ find_primary_keys d db_name = "[]" := by
  have hc : (decide (db_name ≠ "") && (get_schema_names d).contains db_name) = true := by
    rw [Bool.and_eq_true]
    exact ⟨decide_eq_true h1, h2⟩
  refine ⟨?_, ?_, find_primary_keys_sentinel d db_name⟩
  · intro hfk
    unfold find_foreign_keys
    dsimp only
    rw [if_pos hc]
    have h3 : (get_table_names d db_name).foldl
        (fun acc t => (get_foreign_keys d t).foldl (fun acc2 fk => acc2 ++ fkItem t fk) acc)
        "[" = "[" := by
      apply foldl_fixed
      intro acc t ht
      rw [hfk t ht]
      rfl
    rw [h3]
    decide
  · intro htb
    unfold find_fields
    dsimp only
    rw [if_pos hc, htb]
    rfl

/-- Witness for C9 on a database whose only schema has no tables. -/
theorem c9_witness :
    find_foreign_keys emptySchemaDb "s" = "[]"
    ∧ find_fields emptySchemaDb "s" = "[]"
    ∧ find_primary_keys emptySchemaDb "s" = "[]" := by
  have h := c9_empty_introspection_sentinels emptySchemaDb "s" (by decide) (by decide)
  exact ⟨h.1 (fun t ht => absurd ht (List.not_mem_nil t)), h.2.1 rfl, h.2.2⟩

/-- Claim C10: iterating the dict returned by the per-table
primary-key introspection yields string keys, so the dict-typed guard
never holds and `find_primary_keys` returns `"[]"` for every database
— including one whose table carries a real primary-key constraint. -/
theorem c10_find_primary_keys_always_sentinel :
    (∀ (d : Database) (db_name : String), find_primary_keys d db_name = "[]")
    ∧ find_primary_keys exampleDb "s" = "[]" :=
  ⟨find_primary_keys_sentinel, find_primary_keys_sentinel exampleDb "s"⟩

end Txt2Sql
